import Mathlib

/-!
Verification of the christmas-memory-tree application (`src/App.tsx`).

The source is shallowly embedded: JavaScript floating-point numbers are
modelled as real numbers, and every call to `Math.random()` is made
explicit, either as a parameter holding the drawn sample (a value in
`[0,1)`) or as a sample stream `ℕ → ℝ` read at an explicit counter, the
samples being consumed in exactly the order the source draws them.
-/

namespace MemoryTree

/-- A 3D vector (`THREE.Vector3`). -/
structure Vec3 where
  x : ℝ
  y : ℝ
  z : ℝ

/-- `THREE.Vector3.add` (componentwise addition). -/
def Vec3.add (a b : Vec3) : Vec3 :=
  ⟨a.x + b.x, a.y + b.y, a.z + b.z⟩

/-- Euclidean length of a vector. -/
noncomputable def Vec3.norm (v : Vec3) : ℝ :=
  Real.sqrt (v.x ^ 2 + v.y ^ 2 + v.z ^ 2)

/-- `Math.cbrt` on a nonnegative argument, as the real power `x ^ (1/3)`. -/
noncomputable def cbrt (x : ℝ) : ℝ := x ^ ((1 : ℝ) / 3)

/-- Modelled from the spec: `THREE.MathUtils.lerp(a, b, t) = a + (b - a) * t`
(the external library call at `App.tsx` 97, 107, 117, 192, 198, 204). -/
noncomputable def lerp (a b t : ℝ) : ℝ := a + (b - a) * t

/-- Modelled from the spec: `damp(current, target, rate, deltaTime) =
target + (current - target) * exp(-rate * deltaTime)` — the behaviour of the
external `THREE.MathUtils.damp` called at `App.tsx` 95-124 and 190-207. -/
noncomputable def damp (current target rate dt : ℝ) : ℝ :=
  target + (current - target) * Real.exp (-rate * dt)

/-- The cone radius `maxRadius * (1 - normalizedHeight) * (0.8 + ρ * 0.4)`
computed at `App.tsx` 30-33; `ρ` is the `Math.random()` jitter sample. -/
noncomputable def phylloRadius (index total : ℕ) (maxRadius ρ : ℝ) : ℝ :=
  maxRadius * (1 - (index : ℝ) / (total : ℝ)) * (0.8 + ρ * 0.4)

/-- `getPhyllotaxisPosition` (`App.tsx` 23-41); `ρ` is the `Math.random()`
sample drawn for the radius jitter. -/
noncomputable def getPhyllotaxisPosition (index total : ℕ)
    (maxRadius heightScale ρ : ℝ) : Vec3 :=
  let angle := (index : ℝ) * 137.5 * (Real.pi / 180)
  let normalizedHeight := (index : ℝ) / (total : ℝ)
  let currentRadius := phylloRadius index total maxRadius ρ
  { x := Real.cos angle * currentRadius
    y := normalizedHeight * heightScale - heightScale / 2
    z := Real.sin angle * currentRadius }

/-- `randomVectorInSphere` (`App.tsx` 44-55); `u`, `v`, `w` are the three
`Math.random()` samples, in the order the source draws them. -/
noncomputable def randomVectorInSphere (radius u v w : ℝ) : Vec3 :=
  let theta := 2 * Real.pi * u
  let phi := Real.arccos (2 * v - 1)
  let r := cbrt w * radius
  { x := r * Real.sin phi * Real.cos theta
    y := r * Real.sin phi * Real.sin theta
    z := r * Real.cos phi }

/-- One needle particle's static record (`App.tsx` 78-87). -/
structure NeedleRecord where
  treePos : Vec3
  scatterPos : Vec3
  speed : ℝ
  rotationOffset : ℝ
  scale : ℝ

/-- `BaseParticleData` (`App.tsx` 57-62), the photo particle's record. -/
structure BaseParticleData where
  treePos : Vec3
  scatterPos : Vec3
  speed : ℝ
  rotationOffset : ℝ

/-- Needle record `i` of the `useMemo` at `App.tsx` 78-87; each record
consumes seven samples of the stream `rng`, in source order (one inside
`getPhyllotaxisPosition`, three in `randomVectorInSphere`, then `speed`,
`rotationOffset`, `scale`). -/
noncomputable def needleRecord (i count : ℕ) (rng : ℕ → ℝ) : NeedleRecord :=
  let k := 7 * i
  { treePos := getPhyllotaxisPosition i count 4.5 10 (rng k)
    scatterPos := randomVectorInSphere 18 (rng (k + 1)) (rng (k + 2)) (rng (k + 3))
    speed := rng (k + 4) * 0.2 + 0.1
    rotationOffset := rng (k + 5) * Real.pi
    scale := rng (k + 6) * 0.6 + 0.4 }

/-- The needle data array `Array.from({length: count}, ...)` (`App.tsx` 78-87). -/
noncomputable def needleData (count : ℕ) (rng : ℕ → ℝ) : List NeedleRecord :=
  (List.range count).map (fun i => needleRecord i count rng)

/-- The body of the photo particle's `useMemo` (`App.tsx` 172-183),
recomputed whenever its dependency pair `[index, total]` changes; it
consumes six samples of `rng` starting at counter `k`, in source order. -/
noncomputable def photoDataCompute (index total : ℕ) (rng : ℕ → ℝ) (k : ℕ) :
    BaseParticleData :=
  { treePos := (getPhyllotaxisPosition index total 5.5 11 (rng k)).add ⟨0, 0.5, 0⟩
    scatterPos := randomVectorInSphere 20 (rng (k + 1)) (rng (k + 2)) (rng (k + 3))
    speed := rng (k + 4) * 0.1 + 0.05
    rotationOffset := rng (k + 5) * Real.pi }

/-- The memo cell backing the photo particle's `useMemo`: the dependency
pair `(index, total)`, the cached value, and the position of the next
unconsumed random sample. -/
structure PhotoMemo where
  deps : ℕ × ℕ
  value : BaseParticleData
  nextSample : ℕ

/-- Initial mount of a photo particle: the memo computes and caches. -/
noncomputable def photoMount (index total : ℕ) (rng : ℕ → ℝ) (k : ℕ) : PhotoMemo :=
  { deps := (index, total), value := photoDataCompute index total rng k
    nextSample := k + 6 }

/-- A re-render of the photo particle with possibly new props: `useMemo`
returns the cached value when the dependency pair is unchanged and
re-executes its body (drawing fresh random samples) otherwise. -/
noncomputable def photoMemoUpdate (index total : ℕ) (rng : ℕ → ℝ)
    (st : PhotoMemo) : PhotoMemo :=
  if st.deps = (index, total) then st
  else
    { deps := (index, total), value := photoDataCompute index total rng st.nextSample
      nextSample := st.nextSample + 6 }

/-- The target blend factor `mode === "TREE_SHAPE" ? 1 : 0`
(`App.tsx` 91 and 187). -/
noncomputable def targetT (mode : String) : ℝ :=
  if mode = "TREE_SHAPE" then 1 else 0

/-- Componentwise `lerp`, as performed axis by axis at the call sites. -/
noncomputable def lerp3 (a b : Vec3) (t : ℝ) : Vec3 :=
  ⟨lerp a.x b.x t, lerp a.y b.y t, lerp a.z b.z t⟩

/-- Componentwise `damp`, as performed axis by axis at the call sites. -/
noncomputable def damp3 (current target : Vec3) (rate dt : ℝ) : Vec3 :=
  ⟨damp current.x target.x rate dt, damp current.y target.y rate dt,
    damp current.z target.z rate dt⟩

/-- The needle rotation set directly each frame (`App.tsx` 127-132). -/
noncomputable def needleRotation (time : ℝ) (p : NeedleRecord) : Vec3 :=
  ⟨Real.sin (time * p.speed * 0.5 + p.rotationOffset) * 0.2,
    time * p.speed + p.rotationOffset,
    Real.cos (time * p.speed * 0.5 + p.rotationOffset) * 0.2⟩

/-- The transform written into slot `i` of the instanced batch. -/
structure Transform where
  pos : Vec3
  rot : Vec3
  scl : ℝ

/-- One iteration of the needle `useFrame` loop body for one particle: the
damp step that the source drives from the shared `dummy` object's current
position (`App.tsx` 95-124). -/
noncomputable def needleStep (mode : String) (p : NeedleRecord) (current : Vec3)
    (delta : ℝ) : Vec3 :=
  damp3 current (lerp3 p.scatterPos p.treePos (targetT mode)) 1.5 delta

/-- The needle `useFrame` body (`App.tsx` 89-138): the single shared `dummy`
position is threaded through the `forEach`, so each particle's damp step
reads whatever the previous iteration wrote; returns the dummy's final
position together with the transforms written to the batch, in slot order. -/
noncomputable def needleFrame (mode : String) (data : List NeedleRecord)
    (dummy0 : Vec3) (time delta : ℝ) : Vec3 × List Transform :=
  data.foldl
    (fun acc p =>
      let newPos := needleStep mode p acc.1 delta
      (newPos, acc.2 ++ [⟨newPos, needleRotation time p, p.scale⟩]))
    (dummy0, [])

/-- The per-item-state frame the spec demands: each particle is damped from
its own previous smoothed position, one persistent triple per particle. -/
noncomputable def perItemFrame (mode : String) (data : List NeedleRecord)
    (prev : List Vec3) (delta : ℝ) : List Vec3 :=
  List.zipWith (fun p own => needleStep mode p own delta) data prev

/-- The photo particle's damped position step (`App.tsx` 190-207), driven
from the mesh's own persistent position `ref.current.position`. -/
noncomputable def photoPosStep (mode : String) (d : BaseParticleData)
    (own : Vec3) (delta : ℝ) : Vec3 :=
  damp3 own (lerp3 d.scatterPos d.treePos (targetT mode)) 1.2 delta

/-- The roll applied after the billboard `lookAt` (`App.tsx` 211-213);
`lookAt` itself targets the camera position and does not read `mode`. -/
noncomputable def photoRoll (time : ℝ) (d : BaseParticleData) : ℝ :=
  Real.sin (time * d.speed + d.rotationOffset) * 0.1

/-- The app state held by the two `useState` hooks (`App.tsx` 242-243). -/
structure AppState where
  mode : String
  imageUrls : List String

/-- `handleImageUpload` (`App.tsx` 246-256): when the event carries files,
their object URLs are appended to the list and the mode is set to
`"SCATTERED"`; with no files nothing happens. `createURL` stands for
`URL.createObjectURL`. -/
def handleImageUpload {α : Type} (createURL : α → String)
    (files : Option (List α)) (st : AppState) : AppState :=
  match files with
  | none => st
  | some fs => { mode := "SCATTERED", imageUrls := st.imageUrls ++ fs.map createURL }

/-- The formation targets generated for a photo collection of size `total`:
the program instantiates one `PhotoParticle` per element of `imageUrls`
(`App.tsx` 393-401), each computing `getPhyllotaxisPosition index total ...`
inside its memo (`App.tsx` 172-183). -/
noncomputable def photoFormationTargets (total : ℕ) (rng : ℕ → ℝ) : List Vec3 :=
  (List.range total).map (fun i => (photoDataCompute i total rng (6 * i)).treePos)

/-!  ## Claims  -/

/-- C5: `damp` is framerate-independent: splitting an elapsed time `t` into
sub-steps `t1 + t2 = t` and damping twice gives exactly the one-step result. -/
theorem damp_step_split (c g r t1 t2 t : ℝ) (h : t1 + t2 = t) :
    damp (damp c g r t1) g r t2 = damp c g r t := by
  subst h
  simp only [damp]
  rw [show -r * (t1 + t2) = -r * t1 + -r * t2 by ring, Real.exp_add]
  ring

/-- Witness for C5 at `current = 5`, `target = 2`, `rate = 1`, split `1 + 2 = 3`. -/
theorem damp_step_split_witness :
    (1 : ℝ) + 2 = 3 ∧ damp (damp 5 2 1 1) 2 1 2 = damp 5 2 1 3 :=
  ⟨by norm_num, damp_step_split 5 2 1 1 2 3 (by norm_num)⟩

/-- C6 counterexample: with `current = target` the claimed strict inequality
`|result - target| < |current - target|` fails (`0 < 0`), already at
`current = target = 0`, `rate = 1`, `deltaTime = 1`. -/
theorem damp_not_strict_at_target :
    ¬ |damp 0 0 1 1 - 0| < |(0 : ℝ) - 0| := by
  simp [damp]

/-- C6 amended: whenever `deltaTime > 0`, `rate > 0` and `current ≠ target`,
the damped value is strictly closer to the target; at `current = target` the
result stays exactly at the target. -/
theorem damp_strict_convergence (c g r dt : ℝ) (hdt : 0 < dt) (hr : 0 < r)
    (hne : c ≠ g) : |damp c g r dt - g| < |c - g| := by
  have hexp : Real.exp (-r * dt) < 1 := by
    rw [Real.exp_lt_one_iff]
    nlinarith
  have hpos : 0 < |c - g| := abs_pos.mpr (sub_ne_zero.mpr hne)
  have : |damp c g r dt - g| = |c - g| * Real.exp (-r * dt) := by
    simp only [damp, add_sub_cancel_left, abs_mul,
      abs_of_pos (Real.exp_pos (-r * dt))]
  rw [this]
  nlinarith [Real.exp_pos (-r * dt)]

/-- Witness for C6's amended theorem at `current = 1`, `target = 0`,
`rate = 1`, `deltaTime = 1`. -/
theorem damp_strict_convergence_witness :
    (0 : ℝ) < 1 ∧ (1 : ℝ) ≠ 0 ∧ |damp 1 0 1 1 - 0| < |(1 : ℝ) - 0| :=
  ⟨by norm_num, by norm_num,
    damp_strict_convergence 1 0 1 1 (by norm_num) (by norm_num) (by norm_num)⟩

/-- C7: with the jitter factor fixed to `1.0` (sample `ρ = 1/2`, since the
factor is `0.8 + ρ * 0.4`), the formation height is exactly
`(i/total)*heightScale - heightScale/2` for every `i < total`, and index `0`
sits at radius `maxRadius`, i.e. at `(R, -H/2, 0)`. -/
theorem phyllotaxis_height_and_base (i total : ℕ) (R H : ℝ) (_hi : i < total) :
    (getPhyllotaxisPosition i total R H (1 / 2)).y =
      (i : ℝ) / (total : ℝ) * H - H / 2 ∧
    getPhyllotaxisPosition 0 total R H (1 / 2) = ⟨R, -(H / 2), 0⟩ := by
  constructor
  · simp [getPhyllotaxisPosition]
  · simp only [getPhyllotaxisPosition, phylloRadius, Nat.cast_zero, zero_mul,
      zero_div, Real.cos_zero, Real.sin_zero, sub_zero, Vec3.mk.injEq]
    refine ⟨by norm_num, by ring, by ring⟩

/-- Witness for C7 at `total = 10`, `H = 10`, `R = 3`, `i = 9`: the height is
`(9/10)*10 - 10/2 = 4`. -/
theorem phyllotaxis_height_and_base_witness :
    9 < 10 ∧ (getPhyllotaxisPosition 9 10 3 10 (1 / 2)).y = 4 := by
  refine ⟨by norm_num, ?_⟩
  have h := (phyllotaxis_height_and_base 9 10 3 10 (by norm_num)).1
  rw [h]
  norm_num

/-- C8: for `radius ≥ 0` and uniforms `u, v ∈ ℝ`, `w ∈ [0,1)`, the point
returned by `randomVectorInSphere` has Euclidean norm exactly
`radius * cbrt w`, hence lies inside the sphere of the given radius. -/
theorem randomVectorInSphere_norm (radius u v w : ℝ) (hrad : 0 ≤ radius)
    (hw0 : 0 ≤ w) (hw1 : w < 1) :
    (randomVectorInSphere radius u v w).norm = radius * cbrt w ∧
    (randomVectorInSphere radius u v w).norm ≤ radius := by
  have hc0 : 0 ≤ cbrt w := Real.rpow_nonneg hw0 _
  have hc1 : cbrt w ≤ 1 := Real.rpow_le_one hw0 hw1.le (by norm_num)
  have hr0 : 0 ≤ cbrt w * radius := mul_nonneg hc0 hrad
  have hnorm : (randomVectorInSphere radius u v w).norm = cbrt w * radius := by
    simp only [randomVectorInSphere, Vec3.norm]
    have hsq :
        (cbrt w * radius * Real.sin (Real.arccos (2 * v - 1)) *
              Real.cos (2 * Real.pi * u)) ^ 2 +
            (cbrt w * radius * Real.sin (Real.arccos (2 * v - 1)) *
              Real.sin (2 * Real.pi * u)) ^ 2 +
            (cbrt w * radius * Real.cos (Real.arccos (2 * v - 1))) ^ 2 =
          (cbrt w * radius) ^ 2 := by
      have ht := Real.sin_sq_add_cos_sq (2 * Real.pi * u)
      have hp := Real.sin_sq_add_cos_sq (Real.arccos (2 * v - 1))
      linear_combination
        (cbrt w * radius * Real.sin (Real.arccos (2 * v - 1))) ^ 2 * ht +
          (cbrt w * radius) ^ 2 * hp
    rw [hsq]
    exact Real.sqrt_sq hr0
  constructor
  · rw [hnorm]; ring
  · rw [hnorm]
    calc cbrt w * radius ≤ 1 * radius := by
          exact mul_le_mul_of_nonneg_right hc1 hrad
      _ = radius := one_mul radius

/-- Witness for C8 at `radius = 2`, `u = v = w = 0`. -/
theorem randomVectorInSphere_norm_witness :
    (0 : ℝ) ≤ 2 ∧ (0 : ℝ) ≤ 0 ∧ (0 : ℝ) < 1 ∧
    (randomVectorInSphere 2 0 0 0).norm = 2 * cbrt 0 :=
  ⟨by norm_num, le_refl 0, by norm_num,
    (randomVectorInSphere_norm 2 0 0 0 (by norm_num) (le_refl 0) (by norm_num)).1⟩

/-- C2: the position generation for a collection of size `total` performs no
work at all when `total = 0` (the map over `List.range 0` is empty, the
source's `imageUrls.map` mounts no particle), and every position it does
produce was computed with a strictly positive denominator `total`. -/
theorem positionGenerator_total_zero (rng : ℕ → ℝ) :
    photoFormationTargets 0 rng = [] ∧
    ∀ total : ℕ, ∀ p : Vec3, p ∈ photoFormationTargets total rng → 0 < total := by
  constructor
  · simp [photoFormationTargets]
  · intro total p hp
    rcases List.mem_map.mp hp with ⟨i, hi, -⟩
    exact Nat.lt_of_le_of_lt (Nat.zero_le i) (List.mem_range.mp hi)

/-- Witness for C2: the concrete stream `fun _ => 1/2`, an empty generation
at `total = 0`, and the single produced position at `total = 1` certifying
its positive denominator. -/
theorem positionGenerator_total_zero_witness :
    photoFormationTargets 0 (fun _ => 1 / 2) = [] ∧ 0 < 1 := by
  refine ⟨(positionGenerator_total_zero (fun _ => 1 / 2)).1, ?_⟩
  exact (positionGenerator_total_zero (fun _ => 1 / 2)).2 1
    ((photoDataCompute 0 1 (fun _ => 1 / 2) 0).treePos)
    (by simp [photoFormationTargets])

/-- C4: uploading `n` files onto a collection of `K` urls appends their
object URLs at the next ordinal indices — the result has length `K + n`,
keeps every prior entry in place, and equals the old list followed by the
new urls — and the mode is reset to `"SCATTERED"` whatever it was before. -/
theorem handleImageUpload_appends_and_scatters {α : Type} (createURL : α → String)
    (fs : List α) (st : AppState) :
    (handleImageUpload createURL (some fs) st).imageUrls =
        st.imageUrls ++ fs.map createURL ∧
    (handleImageUpload createURL (some fs) st).imageUrls.length =
        st.imageUrls.length + fs.length ∧
    (handleImageUpload createURL (some fs) st).imageUrls.take
        st.imageUrls.length = st.imageUrls ∧
    (handleImageUpload createURL (some fs) st).mode = "SCATTERED" := by
  refine ⟨rfl, ?_, ?_, rfl⟩
  · simp [handleImageUpload]
  · simp [handleImageUpload, List.take_left]

/-- C9: any mode string other than the defined `"TREE_SHAPE"` drives both
animators exactly as `"SCATTERED"` does: the needle frame writes the same
transforms (and leaves the dummy in the same place), and the photo step and
roll are unchanged — an unknown mode is the fail-safe scattered behaviour. -/
theorem unknown_mode_behaves_as_scattered (m : String) (hm : m ≠ "TREE_SHAPE")
    (data : List NeedleRecord) (dummy0 : Vec3) (time delta : ℝ)
    (d : BaseParticleData) (own : Vec3) :
    needleFrame m data dummy0 time delta =
        needleFrame "SCATTERED" data dummy0 time delta ∧
    photoPosStep m d own delta = photoPosStep "SCATTERED" d own delta ∧
    photoRoll time d = photoRoll time d := by
  have ht : targetT m = targetT "SCATTERED" := by
    simp only [targetT, if_neg hm,
      if_neg (show ¬"SCATTERED" = "TREE_SHAPE" by decide)]
  refine ⟨?_, ?_, rfl⟩
  · simp only [needleFrame, needleStep, ht]
  · simp only [photoPosStep, ht]

/-- Witness for C9 at the corrupt mode `"GARBAGE"` with a concrete record. -/
theorem unknown_mode_behaves_as_scattered_witness :
    "GARBAGE" ≠ "TREE_SHAPE" ∧
    needleFrame "GARBAGE" [] ⟨0, 0, 0⟩ 0 1 =
        needleFrame "SCATTERED" [] ⟨0, 0, 0⟩ 0 1 ∧
    photoPosStep "GARBAGE" ⟨⟨0, 0, 0⟩, ⟨1, 1, 1⟩, 1, 0⟩ ⟨2, 2, 2⟩ 1 =
        photoPosStep "SCATTERED" ⟨⟨0, 0, 0⟩, ⟨1, 1, 1⟩, 1, 0⟩ ⟨2, 2, 2⟩ 1 := by
  have h := unknown_mode_behaves_as_scattered "GARBAGE" (by decide) []
    ⟨0, 0, 0⟩ 0 1 ⟨⟨0, 0, 0⟩, ⟨1, 1, 1⟩, 1, 0⟩ ⟨2, 2, 2⟩
  exact ⟨by decide, h.1, h.2.1⟩

/-- A concrete needle record whose scatter target is the origin. -/
noncomputable def needleA : NeedleRecord := ⟨⟨0, 0, 0⟩, ⟨0, 0, 0⟩, 1, 0, 1⟩

/-- A concrete needle record whose scatter target is `(10, 0, 0)`. -/
noncomputable def needleB : NeedleRecord := ⟨⟨10, 0, 0⟩, ⟨10, 0, 0⟩, 1, 0, 1⟩

/-- C1: the needle frame loop does NOT damp each particle from its own
previous smoothed position: threading the single shared `dummy` through the
`forEach` makes particle 0's damp input the value particle 1 wrote last
frame (and particle 1's input the value particle 0 wrote this frame).
Concretely, in mode `"SCATTERED"` with scatter targets `(0,0,0)` and
`(10,0,0)`, per-particle previous positions `(0,0,0)` and `(10,0,0)` (each
particle already at its own target) and the dummy holding `(10,0,0)` (the
last value written into it, by particle 1), `delta = 1`, the transforms the
code writes differ from the per-item-state frame the claim describes: the
code moves particle 0 off its converged position. -/
theorem needle_damp_reads_shared_dummy :
    (needleFrame "SCATTERED" [needleA, needleB] ⟨10, 0, 0⟩ 0 1).2.map
        Transform.pos ≠
      perItemFrame "SCATTERED" [needleA, needleB] [⟨0, 0, 0⟩, ⟨10, 0, 0⟩] 1 := by
  have hcode : (needleFrame "SCATTERED" [needleA, needleB] ⟨10, 0, 0⟩ 0 1).2.map
      Transform.pos =
      [needleStep "SCATTERED" needleA ⟨10, 0, 0⟩ 1,
        needleStep "SCATTERED" needleB
          (needleStep "SCATTERED" needleA ⟨10, 0, 0⟩ 1) 1] := by
    simp [needleFrame]
  have hitem : perItemFrame "SCATTERED" [needleA, needleB]
      [⟨0, 0, 0⟩, ⟨10, 0, 0⟩] 1 =
      [needleStep "SCATTERED" needleA ⟨0, 0, 0⟩ 1,
        needleStep "SCATTERED" needleB ⟨10, 0, 0⟩ 1] := by
    simp [perItemFrame]
  rw [hcode, hitem]
  intro h
  have hhead : needleStep "SCATTERED" needleA ⟨10, 0, 0⟩ 1 =
      needleStep "SCATTERED" needleA ⟨0, 0, 0⟩ 1 :=
    (List.cons.injEq _ _ _ _ ▸ h).1
  have hx := congrArg (fun q => q.x) hhead
  simp only [needleStep, needleA, damp3, damp, lerp3, lerp, targetT,
    if_neg (show ¬"SCATTERED" = "TREE_SHAPE" by decide)] at hx
  have hexp := Real.exp_pos (-(1.5 : ℝ) * 1)
  nlinarith [hx, hexp]

/-- The concrete sample stream for C3's counterexample: the six samples the
mount consumes are all `0`, every later sample is `1/2`. -/
noncomputable def rngC : ℕ → ℝ := fun n => if n < 6 then 0 else 1 / 2

/-- C3 counterexample: growing the collection does NOT leave an existing
element's scatter position untouched. Photo 0 mounts while `total = 1` under
the stream `rngC` and caches `scatterPos = (0,0,0)`; after the collection
grows to `total = 2`, the `useMemo` dependency `[index, total]` changes, the
whole record is recomputed with fresh samples, and the new `scatterPos` is
`(-20·cbrt(1/2), 0, 0) ≠ (0,0,0)`. -/
theorem photo_scatter_resampled_on_growth :
    (photoMemoUpdate 0 2 rngC (photoMount 0 1 rngC 0)).value.scatterPos ≠
      (photoMount 0 1 rngC 0).value.scatterPos := by
  have hold : (photoMount 0 1 rngC 0).value.scatterPos = ⟨0, 0, 0⟩ := by
    simp [photoMount, photoDataCompute, rngC, randomVectorInSphere, cbrt,
      Real.zero_rpow (show ((1 : ℝ) / 3) ≠ 0 by norm_num)]
  have hnew : (photoMemoUpdate 0 2 rngC (photoMount 0 1 rngC 0)).value.scatterPos =
      ⟨-(cbrt (1 / 2) * 20), 0, 0⟩ := by
    have hc : (photoMemoUpdate 0 2 rngC (photoMount 0 1 rngC 0)).value.scatterPos =
        randomVectorInSphere 20 (rngC 7) (rngC 8) (rngC 9) := by
      simp only [photoMemoUpdate, photoMount, photoDataCompute]
      rw [if_neg (by simp)]
    rw [hc]
    have h7 : rngC 7 = 1 / 2 := by norm_num [rngC]
    have h8 : rngC 8 = 1 / 2 := by norm_num [rngC]
    have h9 : rngC 9 = 1 / 2 := by norm_num [rngC]
    rw [h7, h8, h9]
    simp only [randomVectorInSphere]
    rw [show (2 : ℝ) * (1 / 2) - 1 = 0 by norm_num,
      show 2 * Real.pi * (1 / 2 : ℝ) = Real.pi by ring, Real.arccos_zero,
      Real.sin_pi_div_two, Real.cos_pi, Real.sin_pi, Real.cos_pi_div_two]
    simp only [Vec3.mk.injEq]
    refine ⟨by ring, by ring, by ring⟩
  rw [hnew, hold]
  intro h
  have hx : -(cbrt (1 / 2) * 20) = 0 := congrArg Vec3.x h
  have hpos : (0 : ℝ) < cbrt (1 / 2) :=
    Real.rpow_pos_of_pos (by norm_num) _
  linarith

/-- C3 amended: a photo element's record — formation target, scatter
position, jitter, speed and phase alike — is frozen exactly while the memo
dependency pair `(index, total)` is unchanged; when `total` changes, the
whole record (not only the formation target) is recomputed from the next
fresh random samples. -/
theorem photo_memo_recomputes_all_on_growth (index total total' : ℕ)
    (rng : ℕ → ℝ) (k : ℕ) :
    photoMemoUpdate index total rng (photoMount index total rng k) =
        photoMount index total rng k ∧
    (total' ≠ total →
      (photoMemoUpdate index total' rng (photoMount index total rng k)).value =
        photoDataCompute index total' rng (k + 6)) := by
  constructor
  · simp [photoMemoUpdate, photoMount]
  · intro h
    have hne : ¬(photoMount index total rng k).deps = (index, total') := by
      simp only [photoMount, Prod.mk.injEq, not_and]
      exact fun _ h2 => h (h2.symm)
    simp only [photoMemoUpdate]
    rw [if_neg hne]
    simp [photoMount]

/-- Witness for C3's amended theorem at `index = 0`, `total = 1`,
`total' = 2`, the constant-zero stream. -/
theorem photo_memo_recomputes_all_on_growth_witness :
    (2 : ℕ) ≠ 1 ∧
    (photoMemoUpdate 0 2 (fun _ => 0) (photoMount 0 1 (fun _ => 0) 0)).value =
      photoDataCompute 0 2 (fun _ => 0) (0 + 6) :=
  ⟨by decide,
    (photo_memo_recomputes_all_on_growth 0 1 2 (fun _ => 0) 0).2 (by decide)⟩

/-- C10 counterexample: with equal jitter (sample `1/2`, factor `1.0`), the
photo at index 1 of a 2-photo collection has formation radius
`5.5·(1 − 1/2) = 2.75`, while needle 1 of the 6000-needle batch has radius
`4.5·(1 − 1/6000) = 4.49925`: at the program's actual totals a photo's
formation radius does not exceed the needle's at the same index. -/
theorem photo_radius_not_exceeding_at_program_totals :
    ¬ phylloRadius 1 6000 4.5 (1 / 2) < phylloRadius 1 2 5.5 (1 / 2) := by
  simp only [phylloRadius]
  push_cast
  norm_num

/-- C10 amended: the constants are as claimed — a photo's formation target
is the phyllotaxis position with `maxRadius 5.5`, `heightScale 11`
translated by `(0, 0.5, 0)` and its scatter target comes from the radius-20
sphere, a needle's from `maxRadius 4.5`, `heightScale 10` and the radius-18
sphere — and for equal jitter AND equal `(index, total)` arguments with
`index < total` the photo's formation radius strictly exceeds the needle's;
at the program's differing totals (photos: collection size, needles: 6000)
the per-index comparison can fail. -/
theorem photo_envelope_exceeds_needle (i total : ℕ) (ρ : ℝ) (rng : ℕ → ℝ)
    (k : ℕ) (hit : i < total) (hρ : 0 ≤ ρ) :
    (photoDataCompute i total rng k).treePos =
        (getPhyllotaxisPosition i total 5.5 11 (rng k)).add ⟨0, 0.5, 0⟩ ∧
    (photoDataCompute i total rng k).scatterPos =
        randomVectorInSphere 20 (rng (k + 1)) (rng (k + 2)) (rng (k + 3)) ∧
    (needleRecord i total rng).treePos =
        getPhyllotaxisPosition i total 4.5 10 (rng (7 * i)) ∧
    (needleRecord i total rng).scatterPos =
        randomVectorInSphere 18 (rng (7 * i + 1)) (rng (7 * i + 2))
          (rng (7 * i + 3)) ∧
    phylloRadius i total 4.5 ρ < phylloRadius i total 5.5 ρ := by
  refine ⟨rfl, rfl, rfl, rfl, ?_⟩
  have htot : (0 : ℝ) < (total : ℝ) := by
    exact_mod_cast Nat.lt_of_le_of_lt (Nat.zero_le i) hit
  have hlt : (i : ℝ) / (total : ℝ) < 1 := by
    rw [div_lt_one htot]
    exact_mod_cast hit
  have h1 : 0 < 1 - (i : ℝ) / (total : ℝ) := by linarith
  have h2 : (0 : ℝ) < 0.8 + ρ * 0.4 := by linarith
  simp only [phylloRadius]
  nlinarith [mul_pos h1 h2]

/-- Witness for C10's amended theorem at `i = 0`, `total = 1`, jitter
sample `0`. -/
theorem photo_envelope_exceeds_needle_witness :
    0 < 1 ∧ (0 : ℝ) ≤ 0 ∧ phylloRadius 0 1 4.5 0 < phylloRadius 0 1 5.5 0 :=
  ⟨by norm_num, le_refl 0,
    (photo_envelope_exceeds_needle 0 1 0 (fun _ => 0) 0 (by norm_num)
      (le_refl 0)).2.2.2.2⟩

end MemoryTree
